import Mathlib

/-!
Verification of the Auth² role-hierarchy authorization layer.

Shallow embedding of the admin authorization middleware
(`src/core/middleware/adminAuth.ts`) and the admin user-mutation
controllers (`src/controllers/adminController.ts`) of the
TCSS-460 Auth² IAM server, together with theorems settling the
spec's claims about them.

JavaScript values that can appear in a request body are modelled by
`JsVal` (numbers are rationals plus NaN, which is all that
`Number.isInteger` and the numeric comparisons in this code can
distinguish).  Machine state is the PostgreSQL store, modelled as lists
of rows; transactions are modelled by returning the pre-transaction
state on every error path, exactly as the controllers' explicit
`ROLLBACK` calls do.
-/

namespace Auth2

/-- A JavaScript/JSON value as it can occur in `request.body` fields.
`vUndefined` stands for an absent field. -/
inductive JsVal where
  | vUndefined
  | vNull
  | vBool (b : Bool)
  | vNan
  | vNum (q : ℚ)
  | vStr (s : String)
deriving DecidableEq, Repr

/-- JavaScript truthiness: `undefined`, `null`, `false`, `0`, `NaN` and
the empty string are falsy, everything else truthy. -/
def jsTruthy : JsVal → Bool
  | .vUndefined => false
  | .vNull => false
  | .vBool b => b
  | .vNan => false
  | .vNum q => decide (q ≠ 0)
  | .vStr s => decide (s ≠ "")

/-- JavaScript `a || b`: the first operand when truthy, otherwise the
second. -/
def jsOr (a b : JsVal) : JsVal := if jsTruthy a then a else b

/-- `Number.isInteger(v)`: true exactly for number values that are
integers (false for NaN and for every non-number). -/
def isIntegerJs : JsVal → Bool
  | .vNum q => decide (q.den = 1)
  | _ => false

/-- JavaScript `v < k` against a numeric literal.  In `canManageRole`
this comparison is only reached (in the sense of being able to change
the value of the short-circuited disjunction) when `v` is an integer
number, because `!Number.isInteger(v)` already decides the disjunction
for every other value; for those unreachable cases we return `false`. -/
def jsLtNum (v : JsVal) (k : ℚ) : Bool :=
  match v with
  | .vNum q => decide (q < k)
  | _ => false

/-- JavaScript `v > k` against a numeric value; see `jsLtNum` for the
treatment of non-number cases. -/
def jsGtNum (v : JsVal) (k : ℚ) : Bool :=
  match v with
  | .vNum q => decide (q > k)
  | _ => false

/-- An integer number as a request-body value. -/
def intVal (n : ℤ) : JsVal := .vNum (n : ℚ)

/-- Decoded JWT claims attached to a request (`request.claims`). -/
structure Claims where
  id : ℤ
  role : ℤ
deriving DecidableEq, Repr

/-- The request-body fields the admin middleware reads. -/
structure Body where
  role : JsVal
  account_role : JsVal
deriving DecidableEq, Repr

/-- The parts of an Express request the admin middleware reads:
claims, the (validated, integer) `:id` route parameter, and the body. -/
structure Req where
  claims : Option Claims
  paramsId : ℤ
  body : Body
deriving DecidableEq, Repr

/-- Outcome of one Express middleware: either it calls `next()` or it
ends the request with an HTTP status. -/
inductive MwResult where
  | next
  | stop (status : ℕ)
deriving DecidableEq, Repr

/-- Role hierarchy constants (`UserRole`). -/
def ROLES_USER : ℤ := 1
def ROLES_MODERATOR : ℤ := 2
def ROLES_ADMIN : ℤ := 3
def ROLES_SUPER_ADMIN : ℤ := 4
def ROLES_OWNER : ℤ := 5

/-- `requireRole(minRole)`: 401 without claims, 403 when
`claims.role < minRole`, otherwise `next()`. -/
def requireRole (minRole : ℤ) (req : Req) : MwResult :=
  match req.claims with
  | none => .stop 401
  | some c => if c.role < minRole then .stop 403 else .next

/-- The condition `!Number.isInteger(targetRole) || targetRole < 1 ||
targetRole > 5` guarding the 400 answer of `canManageRole`. -/
def roleValueInvalid (v : JsVal) : Bool :=
  !isIntegerJs v || jsLtNum v 1 || jsGtNum v 5

/-- `canManageRole`: reads `request.body.role || request.body.account_role`;
passes through when the selected value is `undefined`; answers 400 when it
is not an integer in [1,5]; answers 403 when it exceeds the actor's role;
otherwise `next()`. -/
def canManageRole (req : Req) : MwResult :=
  match req.claims with
  | none => .stop 401
  | some c =>
    let targetRole := jsOr req.body.role req.body.account_role
    if targetRole = JsVal.vUndefined then .next
    else if roleValueInvalid targetRole then .stop 400
    else if jsGtNum targetRole (c.role : ℚ) then .stop 403
    else .next

/-- `preventSelfModification`: 403 when the `:id` parameter equals the
actor's own account id. -/
def preventSelfModification (req : Req) : MwResult :=
  match req.claims with
  | none => .stop 401
  | some c => if req.paramsId = c.id then .stop 403 else .next

/-- An `account` row. -/
structure Account where
  account_id : ℤ
  firstname : String
  lastname : String
  username : String
  email : String
  email_verified : Bool
  phone : Option String
  phone_verified : Bool
  account_role : ℤ
  account_status : String
  created_at : ℕ
  updated_at : ℕ
deriving DecidableEq, Repr

/-- An `account_credential` row. -/
structure Credential where
  account_id : ℤ
  salted_hash : String
  salt : String
deriving DecidableEq, Repr

/-- The persistent store: the two tables the admin operations touch.
`account_id` is the primary key of `account`. -/
structure DB where
  accounts : List Account
  credentials : List Credential
deriving DecidableEq, Repr

/-- `SELECT ... FROM account WHERE account_id = $1` (unique key). -/
def findAccount (db : DB) (userId : ℤ) : Option Account :=
  db.accounts.find? (fun a => a.account_id == userId)

/-- `canModifyTargetUser`: fetches the target's stored role; absent
target ⇒ `next()` (the controller produces the 404); stored role above
the actor's ⇒ 403; otherwise `next()`. -/
def canModifyTargetUser (req : Req) (db : DB) : MwResult :=
  match req.claims with
  | none => .stop 401
  | some c =>
    match findAccount db req.paramsId with
    | none => .next
    | some a => if a.account_role > c.role then .stop 403 else .next

/-- Run an Express middleware array: each element either ends the
request or hands over to the next one. -/
def runChain (mws : List (Req → DB → MwResult)) (req : Req) (db : DB) : MwResult :=
  match mws with
  | [] => .next
  | m :: rest =>
    match m req db with
    | .next => runChain rest req db
    | .stop s => .stop s

/-- `requireAdminForUserModification`: the combined middleware array
`[requireRole(MODERATOR), preventSelfModification, canModifyTargetUser,
canManageRole]`. -/
def requireAdminForUserModification (req : Req) (db : DB) : MwResult :=
  runChain
    [fun r _ => requireRole ROLES_MODERATOR r,
     fun r _ => preventSelfModification r,
     canModifyTargetUser,
     fun r _ => canManageRole r] req db

/-- Input of `POST /admin/users/create` after route validation
(`validateAdminCreateUser` guarantees `role` is an integer in [1,5]). -/
structure CreateUserInput where
  firstname : String
  lastname : String
  username : String
  email : String
  password : String
  phone : Option String
  role : ℤ
deriving DecidableEq, Repr

/-- The account row inserted by `createUser`:
status `active`, both verified flags false, timestamps `now`. -/
def mkNewAccount (inp : CreateUserInput) (newId : ℤ) (now : ℕ) : Account :=
  { account_id := newId
    firstname := inp.firstname
    lastname := inp.lastname
    username := inp.username
    email := inp.email
    email_verified := false
    phone := inp.phone
    phone_verified := false
    account_role := inp.role
    account_status := "active"
    created_at := now
    updated_at := now }

/-- `SELECT account_id FROM account WHERE username = $1 OR email = $2`
(non-emptiness of the result). -/
def usernameOrEmailExists (db : DB) (username email : String) : Bool :=
  db.accounts.any (fun a => a.username == username || a.email == email)

/-- `createUser` (POST /admin/users/create).  The whole body runs between
`BEGIN` and `COMMIT`; every error path issues `ROLLBACK`, so it returns
the pre-transaction store.  `newId` is the id the insert generates,
`salt`/`hash` the output of `generateSaltedHash(password)` (random salt
modelled as an input), `now` the current timestamp.  `failAt = some n`
injects a store failure (an exception caught by the surrounding
`catch`, which rolls back and answers 500) at the n-th fallible query
after `BEGIN`: 0 = duplicate-check SELECT, 1 = account INSERT,
2 = credential INSERT, 3 = COMMIT. -/
def createUser (db : DB) (inp : CreateUserInput) (newId : ℤ)
    (salt hash : String) (now : ℕ) (failAt : Option ℕ) : DB × ℕ :=
  if failAt = some 0 then (db, 500)
  else if usernameOrEmailExists db inp.username inp.email then (db, 409)
  else if failAt = some 1 then (db, 500)
  else
    let db1 : DB := { db with accounts := db.accounts ++ [mkNewAccount inp newId now] }
    if failAt = some 2 then (db, 500)
    else
      let db2 : DB := { db1 with credentials := db1.credentials ++ [⟨newId, hash, salt⟩] }
      if failAt = some 3 then (db, 500)
      else (db2, 201)

/-- `resetUserPassword` (PUT /admin/users/:id/password).  Runs inside
`BEGIN`/`COMMIT` with `ROLLBACK` on every error path.  `failAt` as in
`createUser`: 0 = existence SELECT, 1 = credential UPDATE, 2 = COMMIT. -/
def resetUserPassword (db : DB) (userId : ℤ) (salt hash : String)
    (failAt : Option ℕ) : DB × ℕ :=
  if failAt = some 0 then (db, 500)
  else if (findAccount db userId).isNone then (db, 404)
  else if failAt = some 1 then (db, 500)
  else
    let db1 : DB :=
      { db with credentials := db.credentials.map (fun cr =>
          if cr.account_id == userId then { cr with salted_hash := hash, salt := salt } else cr) }
    if failAt = some 2 then (db, 500)
    else (db1, 200)

/-- Input of `PUT /admin/users/:id`: every field optional (`none` =
field absent from the body). -/
structure UpdateUserInput where
  firstname : Option String
  lastname : Option String
  username : Option String
  email : Option String
  phone : Option (Option String)
  account_status : Option String
  email_verified : Option Bool
  phone_verified : Option Bool
deriving DecidableEq, Repr

/-- "No fields to update" (the dynamic SET list is empty). -/
def noFieldsToUpdate (inp : UpdateUserInput) : Bool :=
  inp.firstname.isNone && inp.lastname.isNone && inp.username.isNone &&
  inp.email.isNone && inp.phone.isNone && inp.account_status.isNone &&
  inp.email_verified.isNone && inp.phone_verified.isNone

/-- The row produced by the dynamic UPDATE: present fields overwrite,
`updated_at` is refreshed. -/
def applyUpdate (inp : UpdateUserInput) (now : ℕ) (a : Account) : Account :=
  { a with
    firstname := inp.firstname.getD a.firstname
    lastname := inp.lastname.getD a.lastname
    username := inp.username.getD a.username
    email := inp.email.getD a.email
    phone := inp.phone.getD a.phone
    account_status := inp.account_status.getD a.account_status
    email_verified := inp.email_verified.getD a.email_verified
    phone_verified := inp.phone_verified.getD a.phone_verified
    updated_at := now }

/-- Whether the UPDATE would break the schema's UNIQUE constraints on
`username`, `email` or `phone` (another row already carries the new
value) — Postgres then raises and the controller's `catch` answers a
generic 500. -/
def violatesUniqueness (db : DB) (userId : ℤ) (inp : UpdateUserInput) : Bool :=
  db.accounts.any (fun b =>
    b.account_id != userId &&
    ((match inp.username with | some u => b.username == u | none => false) ||
     (match inp.email with | some e => b.email == e | none => false) ||
     (match inp.phone with
      | some (some p) => b.phone == some p
      | _ => false)))

/-- `updateUser` (PUT /admin/users/:id).  No transaction and no
duplicate pre-check: a single dynamic UPDATE; 400 when no field is
present, 404 when the id matches no row (the UPDATE touches no row, so
no constraint can fire), 500 when the UPDATE raises a uniqueness
violation (caught by the generic `catch`), 200 otherwise. -/
def updateUser (db : DB) (userId : ℤ) (inp : UpdateUserInput) (now : ℕ) : DB × ℕ :=
  if noFieldsToUpdate inp then (db, 400)
  else
    match findAccount db userId with
    | none => (db, 404)
    | some _ =>
      if violatesUniqueness db userId inp then (db, 500)
      else
        ({ db with accounts := db.accounts.map (fun a =>
            if a.account_id == userId then applyUpdate inp now a else a) }, 200)

/-- `deleteUser` (DELETE /admin/users/:id): soft delete —
`UPDATE account SET account_status = 'deleted', updated_at = now
WHERE account_id = $1`; 404 when no row matches. -/
def deleteUser (db : DB) (userId : ℤ) (now : ℕ) : DB × ℕ :=
  match findAccount db userId with
  | none => (db, 404)
  | some _ =>
    ({ db with accounts := db.accounts.map (fun a =>
        if a.account_id == userId then { a with account_status := "deleted", updated_at := now } else a) },
     200)

/-- `changeUserRole` (PUT /admin/users/:id/role):
`UPDATE account SET account_role = $1, updated_at = now
WHERE account_id = $2`; 404 when no row matches. -/
def changeUserRole (db : DB) (userId : ℤ) (role : ℤ) (now : ℕ) : DB × ℕ :=
  match findAccount db userId with
  | none => (db, 404)
  | some _ =>
    ({ db with accounts := db.accounts.map (fun a =>
        if a.account_id == userId then { a with account_role := role, updated_at := now } else a) },
     200)

/-- The integer a validated body `role` stands for (the role routes run
`validateRoleChange`, which guarantees an integer in [1,5] before the
controller reads it; other values never reach the controller). -/
def jsValToInt : JsVal → ℤ
  | .vNum q => q.num
  | _ => 0

/-- The full `PUT /admin/users/:id/role` handler: the
`requireAdminForUserModification` middleware array in front of
`changeUserRole`.  A middleware denial ends the request before the
controller runs, so the store is untouched on that path. -/
def handlePutUserRole (req : Req) (db : DB) (now : ℕ) : DB × ℕ :=
  match requireAdminForUserModification req db with
  | .stop s => (db, s)
  | .next => changeUserRole db req.paramsId (jsValToInt req.body.role) now

/-! Concrete sample data used to evaluate the theorems on explicit inputs. -/

/-- A stored account with role Admin (3). -/
def acctAlice : Account :=
  { account_id := 1, firstname := "Alice", lastname := "A", username := "alice",
    email := "alice@example.com", email_verified := true, phone := none,
    phone_verified := false, account_role := 3, account_status := "active",
    created_at := 0, updated_at := 0 }

/-- A second stored account, also role Admin (3). -/
def acctBob : Account :=
  { account_id := 2, firstname := "Bob", lastname := "B", username := "bob",
    email := "bob@example.com", email_verified := false, phone := some "2535550100",
    phone_verified := false, account_role := 3, account_status := "active",
    created_at := 0, updated_at := 0 }

/-- A two-account store with one credential row per account. -/
def dbSample : DB :=
  { accounts := [acctAlice, acctBob],
    credentials := [{ account_id := 1, salted_hash := "h1", salt := "s1" },
                    { account_id := 2, salted_hash := "h2", salt := "s2" }] }

/-- A request body that sets no role field. -/
def bodyNoRole : Body := { role := .vUndefined, account_role := .vUndefined }

/-- A fresh-user creation input. -/
def inpCharlie : CreateUserInput :=
  { firstname := "Charlie", lastname := "C", username := "charlie",
    email := "charlie@example.com", password := "password123", phone := none, role := 2 }

/-- An update input that only sets `email`, to a value another account holds. -/
def updToAliceEmail : UpdateUserInput :=
  { firstname := none, lastname := none, username := none,
    email := some "alice@example.com", phone := none, account_status := none,
    email_verified := none, phone_verified := none }

/-- Claim C1: for an admin mutation whose target account exists, the
target-ceiling middleware denies with Forbidden (403) when the stored
target role strictly exceeds the actor's claimed role — and then the
composed role-change handler ends the request with 403 leaving the store
untouched, so no mutation is performed — while a stored role less than
or equal to the actor's role passes the ceiling check. -/
theorem targetCeiling_gates_admin_mutation (req : Req) (db : DB) (c : Claims) (a : Account)
    (hc : req.claims = some c)
    (hfind : findAccount db req.paramsId = some a) :
    (a.account_role > c.role →
       canModifyTargetUser req db = .stop 403 ∧
       (requireRole ROLES_MODERATOR req = .next →
        preventSelfModification req = .next →
        ∀ now, handlePutUserRole req db now = (db, 403))) ∧
    (a.account_role ≤ c.role → canModifyTargetUser req db = .next) := by
  constructor
  · intro hgt
    have hcm : canModifyTargetUser req db = .stop 403 := by
      simp [canModifyTargetUser, hc, hfind, hgt]
    refine ⟨hcm, ?_⟩
    intro h1 h2 now
    simp [handlePutUserRole, requireAdminForUserModification, runChain, h1, h2, hcm]
  · intro hle
    simp [canModifyTargetUser, hc, hfind, not_lt.mpr hle]

/-- Witness for C1: an actor with role Moderator (2) targeting the stored
Admin-role (3) account is denied 403 by the ceiling check and by the full
role-change handler, with the store unchanged. -/
theorem targetCeiling_gates_admin_mutation_witness :
    canModifyTargetUser
      { claims := some { id := 7, role := 2 }, paramsId := 2,
        body := { role := intVal 2, account_role := .vUndefined } } dbSample = .stop 403 ∧
    handlePutUserRole
      { claims := some { id := 7, role := 2 }, paramsId := 2,
        body := { role := intVal 2, account_role := .vUndefined } } dbSample 7 = (dbSample, 403) := by
  have h := (targetCeiling_gates_admin_mutation
      { claims := some { id := 7, role := 2 }, paramsId := 2,
        body := { role := intVal 2, account_role := .vUndefined } }
      dbSample { id := 7, role := 2 } acctBob rfl (by decide)).1 (by decide)
  exact ⟨h.1, h.2 (by decide) (by decide) 7⟩

/-- Claim C2: the combined admin user-modification middleware applies
minimum-role, then the self-modification guard, then the target-ceiling
check, then the assignable-role-on-body check, short-circuiting on the
first denial; in particular the target-ceiling step is present in the
composed pipeline. -/
theorem adminPipeline_checks_in_order (req : Req) (db : DB) :
    (∀ s, requireRole ROLES_MODERATOR req = .stop s →
          requireAdminForUserModification req db = .stop s) ∧
    (requireRole ROLES_MODERATOR req = .next →
      (∀ s, preventSelfModification req = .stop s →
            requireAdminForUserModification req db = .stop s) ∧
      (preventSelfModification req = .next →
        (∀ s, canModifyTargetUser req db = .stop s →
              requireAdminForUserModification req db = .stop s) ∧
        (canModifyTargetUser req db = .next →
          requireAdminForUserModification req db = canManageRole req))) := by
  refine ⟨?_, ?_⟩
  · intro s h
    simp [requireAdminForUserModification, runChain, h]
  · intro h1
    refine ⟨?_, ?_⟩
    · intro s h
      simp [requireAdminForUserModification, runChain, h1, h]
    · intro h2
      refine ⟨?_, ?_⟩
      · intro s h
        simp [requireAdminForUserModification, runChain, h1, h2, h]
      · intro h3
        simp [requireAdminForUserModification, runChain, h1, h2, h3]
        cases hm : canManageRole req <;> simp [hm]

/-- Witness for C2: with an actor of role Moderator (2) below the target's
stored role (3), the first two checks pass and the pipeline stops with the
target-ceiling check's 403 — the ceiling step is reached and decides. -/
theorem adminPipeline_checks_in_order_witness :
    requireAdminForUserModification
      { claims := some { id := 7, role := 2 }, paramsId := 2,
        body := { role := intVal 2, account_role := .vUndefined } } dbSample = .stop 403 :=
  (((adminPipeline_checks_in_order
      { claims := some { id := 7, role := 2 }, paramsId := 2,
        body := { role := intVal 2, account_role := .vUndefined } }
      dbSample).2 (by decide)).2 (by decide)).1 403 (by decide)

/-- Claim C3: for all actor roles r1 and target roles r2 in [1,5], the
assignable-role check with the target role in the body allows exactly
when r2 ≤ r1 and denies with Forbidden (403) when r2 > r1. -/
theorem canManageRole_allows_iff_le (r1 r2 aid tid : ℤ)
    (h1 : 1 ≤ r1) (h2 : r1 ≤ 5) (h3 : 1 ≤ r2) (h4 : r2 ≤ 5) :
    canManageRole { claims := some { id := aid, role := r1 }, paramsId := tid,
                    body := { role := intVal r2, account_role := .vUndefined } } =
      (if r2 ≤ r1 then .next else .stop 403) := by
  have hq0 : ((r2 : ℚ) ≠ 0) := by
    have : r2 ≠ 0 := by omega
    exact_mod_cast this
  have hden : ((r2 : ℚ)).den = 1 := Rat.den_intCast r2
  have hlt : ¬ ((r2 : ℚ) < 1) := by exact_mod_cast not_lt.mpr h3
  have hgt : ¬ ((r2 : ℚ) > 5) := by exact_mod_cast not_lt.mpr h4
  have hcmp : ((r2 : ℚ) > (r1 : ℚ)) ↔ r2 > r1 := by exact_mod_cast Iff.rfl
  by_cases hle : r2 ≤ r1
  · simp [canManageRole, jsOr, jsTruthy, intVal, roleValueInvalid, isIntegerJs,
          jsLtNum, jsGtNum, hq0, hden, hlt, hgt, hcmp, hle, not_lt.mpr hle]
  · simp [canManageRole, jsOr, jsTruthy, intVal, roleValueInvalid, isIntegerJs,
          jsLtNum, jsGtNum, hq0, hden, hlt, hgt, hcmp, hle, lt_of_not_le hle]

/-- Witness for C3: an Admin (3) assigning role 2 is allowed, evaluated
concretely. -/
theorem canManageRole_allows_iff_le_witness :
    canManageRole { claims := some { id := 10, role := 3 }, paramsId := 2,
                    body := { role := intVal 2, account_role := .vUndefined } } = .next := by
  simpa using canManageRole_allows_iff_le 3 2 10 2 (by decide) (by decide) (by decide) (by decide)

/-- Counterexample to claim C4 as stated: an actor of role 3 acting on a
target whose stored role is also 3 (equal privilege) is NOT denied — the
ceiling check passes and the full role-change handler succeeds with 200. -/
theorem ceiling_equalRole_counterexample :
    canModifyTargetUser
      { claims := some { id := 1, role := 3 }, paramsId := 2,
        body := { role := intVal 2, account_role := .vUndefined } } dbSample = .next ∧
    canModifyTargetUser
      { claims := some { id := 1, role := 3 }, paramsId := 2,
        body := { role := intVal 2, account_role := .vUndefined } } dbSample ≠ .stop 403 ∧
    (handlePutUserRole
      { claims := some { id := 1, role := 3 }, paramsId := 2,
        body := { role := intVal 2, account_role := .vUndefined } } dbSample 7).2 = 200 := by
  decide

/-- Claim C4 (amended): the ceiling check denies only when the target's
stored role STRICTLY exceeds the actor's claimed role; a target of equal
stored role is allowed through. -/
theorem ceiling_denies_only_strictly_greater (req : Req) (db : DB) (c : Claims) (a : Account)
    (hc : req.claims = some c)
    (hfind : findAccount db req.paramsId = some a) :
    (a.account_role = c.role → canModifyTargetUser req db = .next) ∧
    (a.account_role > c.role → canModifyTargetUser req db = .stop 403) := by
  constructor
  · intro heq
    simp [canModifyTargetUser, hc, hfind, heq]
  · intro hgt
    simp [canModifyTargetUser, hc, hfind, hgt]

/-- Witness for C4 (amended): equal stored role (3 vs 3) passes the
ceiling check; a stored role 3 above an actor role 2 is denied. -/
theorem ceiling_denies_only_strictly_greater_witness :
    canModifyTargetUser
      { claims := some { id := 1, role := 3 }, paramsId := 2, body := bodyNoRole } dbSample = .next ∧
    canModifyTargetUser
      { claims := some { id := 7, role := 2 }, paramsId := 2, body := bodyNoRole } dbSample = .stop 403 :=
  ⟨(ceiling_denies_only_strictly_greater
      { claims := some { id := 1, role := 3 }, paramsId := 2, body := bodyNoRole }
      dbSample { id := 1, role := 3 } acctBob rfl (by decide)).1 (by decide),
   (ceiling_denies_only_strictly_greater
      { claims := some { id := 7, role := 2 }, paramsId := 2, body := bodyNoRole }
      dbSample { id := 7, role := 2 } acctBob rfl (by decide)).2 (by decide)⟩

/-- Counterexample to claim C5 as stated: the body value `role = 0` (with
`account_role` absent) is in the claim's list of values that must be
rejected with InvalidInput (400), but `canManageRole` lets the request
proceed: `0` is falsy, so `body.role || body.account_role` selects
`undefined` and the middleware returns `next()` with no range check. -/
theorem invalidRole_zero_allowed_counterexample :
    canManageRole
      { claims := some { id := 1, role := 1 }, paramsId := 2,
        body := { role := intVal 0, account_role := .vUndefined } } = .next ∧
    canManageRole
      { claims := some { id := 1, role := 1 }, paramsId := 2,
        body := { role := intVal 0, account_role := .vUndefined } } ≠ .stop 400 := by
  decide

/-- Claim C5 (amended): whenever the SELECTED target role value — `body.role`
if truthy, otherwise `body.account_role` — is defined and is non-integer or
outside [1,5], `canManageRole` rejects it with the distinct InvalidInput
response (400), independent of the hierarchy comparison and of the actor's
role; falsy `role` values (such as 0) with `account_role` absent select
`undefined` and are allowed through instead. -/
theorem selectedRole_invalid_rejected_400 (req : Req) (c : Claims)
    (hc : req.claims = some c)
    (hdef : jsOr req.body.role req.body.account_role ≠ JsVal.vUndefined)
    (hbad : roleValueInvalid (jsOr req.body.role req.body.account_role) = true) :
    canManageRole req = .stop 400 := by
  simp [canManageRole, hc, hdef, hbad]

/-- Witness for C5 (amended): a numeric role 7 (out of range), a
non-integer role 5/2, a string role, and `account_role = 0` with `role`
absent are each rejected with 400, whatever the actor's role. -/
theorem selectedRole_invalid_rejected_400_witness :
    canManageRole
      { claims := some { id := 1, role := 5 }, paramsId := 2,
        body := { role := intVal 7, account_role := .vUndefined } } = .stop 400 ∧
    canManageRole
      { claims := some { id := 1, role := 5 }, paramsId := 2,
        body := { role := .vNum (mkRat 5 2), account_role := .vUndefined } } = .stop 400 ∧
    canManageRole
      { claims := some { id := 1, role := 5 }, paramsId := 2,
        body := { role := .vStr "admin", account_role := .vUndefined } } = .stop 400 ∧
    canManageRole
      { claims := some { id := 1, role := 5 }, paramsId := 2,
        body := { role := .vUndefined, account_role := intVal 0 } } = .stop 400 :=
  ⟨selectedRole_invalid_rejected_400 _ { id := 1, role := 5 } rfl (by decide) (by decide),
   selectedRole_invalid_rejected_400 _ { id := 1, role := 5 } rfl (by decide) (by decide),
   selectedRole_invalid_rejected_400 _ { id := 1, role := 5 } rfl (by decide) (by decide),
   selectedRole_invalid_rejected_400 _ { id := 1, role := 5 } rfl (by decide) (by decide)⟩

/-- Claim C6: the two operations touching both Account and Credential —
admin user creation and admin password reset — are atomic: any error
during the unit (injected store failure at any query, uniqueness
conflict, missing user) leaves the store exactly as before, and on
success all writes of the unit are visible together. -/
theorem create_and_reset_are_atomic (db : DB) (inp : CreateUserInput) (newId : ℤ)
    (salt hash : String) (now : ℕ) (userId : ℤ) (f : Option ℕ) :
    ((createUser db inp newId salt hash now f).2 ≠ 201 →
       (createUser db inp newId salt hash now f).1 = db) ∧
    ((createUser db inp newId salt hash now f).2 = 201 →
       (createUser db inp newId salt hash now f).1 =
         { accounts := db.accounts ++ [mkNewAccount inp newId now],
           credentials := db.credentials ++
             [{ account_id := newId, salted_hash := hash, salt := salt }] }) ∧
    ((resetUserPassword db userId salt hash f).2 ≠ 200 →
       (resetUserPassword db userId salt hash f).1 = db) ∧
    ((resetUserPassword db userId salt hash f).2 = 200 →
       (resetUserPassword db userId salt hash f).1 =
         { db with credentials := db.credentials.map (fun cr =>
             if cr.account_id == userId
             then { cr with salted_hash := hash, salt := salt } else cr) }) := by
  unfold createUser resetUserPassword
  split_ifs <;> simp_all

/-- Witness for C6: a store failure at the credential INSERT leaves the
sample store unchanged; the failure-free run commits the account row and
the credential row together; a failure at the credential UPDATE of a
password reset leaves the store unchanged. -/
theorem create_and_reset_are_atomic_witness :
    (createUser dbSample inpCharlie 9 "s9" "h9" 3 (some 2)).1 = dbSample ∧
    (createUser dbSample inpCharlie 9 "s9" "h9" 3 none).1 =
      { accounts := dbSample.accounts ++ [mkNewAccount inpCharlie 9 3],
        credentials := dbSample.credentials ++
          [{ account_id := 9, salted_hash := "h9", salt := "s9" }] } ∧
    (resetUserPassword dbSample 2 "s9" "h9" (some 1)).1 = dbSample :=
  ⟨(create_and_reset_are_atomic dbSample inpCharlie 9 "s9" "h9" 3 2 (some 2)).1 (by decide),
   (create_and_reset_are_atomic dbSample inpCharlie 9 "s9" "h9" 3 2 none).2.1 (by decide),
   (create_and_reset_are_atomic dbSample inpCharlie 9 "s9" "h9" 3 2 (some 1)).2.2.1 (by decide)⟩

/-- Counterexample to claim C7 as stated: updating a user's email to one
another account already holds does NOT surface a distinguishable
Conflict (409) — `updateUser` has no duplicate pre-check, the UNIQUE
constraint failure lands in the generic catch and the caller sees 500
(though no write persists). -/
theorem updateConflict_generic500_counterexample :
    (updateUser dbSample 2 updToAliceEmail 9).2 = 500 ∧
    (updateUser dbSample 2 updToAliceEmail 9).2 ≠ 409 ∧
    (updateUser dbSample 2 updToAliceEmail 9).1 = dbSample := by
  decide

/-- Claim C7 (amended): on admin user creation a username/email
uniqueness violation surfaces as the distinguishable Conflict response
(409) with no account or credential write persisting; on admin user
update a uniqueness violation surfaces only as the generic failure (500),
also with no write persisting. -/
theorem uniqueness_violation_surfacing (db : DB) (inp : CreateUserInput) (newId : ℤ)
    (salt hash : String) (now : ℕ) (userId : ℤ) (uinp : UpdateUserInput) (unow : ℕ) :
    (usernameOrEmailExists db inp.username inp.email = true →
       createUser db inp newId salt hash now none = (db, 409)) ∧
    (∀ a, findAccount db userId = some a →
       noFieldsToUpdate uinp = false →
       violatesUniqueness db userId uinp = true →
       updateUser db userId uinp unow = (db, 500)) := by
  constructor
  · intro hdup
    simp [createUser, hdup]
  · intro a hfind hnf hviol
    simp [updateUser, hnf, hfind, hviol]

/-- Witness for C7 (amended): creating a user with an already-taken
username answers 409 leaving the store unchanged; updating a user to an
already-taken email answers 500 leaving the store unchanged. -/
theorem uniqueness_violation_surfacing_witness :
    createUser dbSample { inpCharlie with username := "bob" } 9 "s9" "h9" 3 none
      = (dbSample, 409) ∧
    updateUser dbSample 2 updToAliceEmail 9 = (dbSample, 500) :=
  ⟨(uniqueness_violation_surfacing dbSample { inpCharlie with username := "bob" }
      9 "s9" "h9" 3 2 updToAliceEmail 9).1 (by decide),
   (uniqueness_violation_surfacing dbSample { inpCharlie with username := "bob" }
      9 "s9" "h9" 3 2 updToAliceEmail 9).2 acctBob (by decide) (by decide) (by decide)⟩

/-- Claim C8: admin delete never removes the record: for an existing
account it answers 200, leaves every credential row untouched, rewrites
only the matching account row to `account_status = deleted` with a
refreshed `updated_at` (all other rows unchanged), and the record is
still found afterwards with account id, names, username, email, phone,
verification flags, role and creation time unchanged. -/
theorem deleteUser_soft_delete_frame (db : DB) (userId : ℤ) (now : ℕ) (a : Account)
    (hfind : findAccount db userId = some a) :
    (deleteUser db userId now).2 = 200 ∧
    (deleteUser db userId now).1.credentials = db.credentials ∧
    (deleteUser db userId now).1.accounts = db.accounts.map (fun x =>
        if x.account_id == userId
        then { x with account_status := "deleted", updated_at := now } else x) ∧
    findAccount (deleteUser db userId now).1 userId =
      some { a with account_status := "deleted", updated_at := now } := by
  have hfind' : db.accounts.find? (fun x => x.account_id == userId) = some a := hfind
  have hpa := List.find?_some hfind'
  refine ⟨?_, ?_, ?_, ?_⟩
  · simp [deleteUser, hfind]
  · simp [deleteUser, hfind]
  · simp [deleteUser, hfind]
  · simp only [deleteUser, hfind]
    unfold findAccount
    rw [List.find?_map]
    have hfun : ((fun x : Account => x.account_id == userId) ∘
        (fun x : Account => if x.account_id == userId
          then { x with account_status := "deleted", updated_at := now } else x))
        = (fun x : Account => x.account_id == userId) := by
      funext x
      simp only [Function.comp_apply]
      by_cases h : (x.account_id == userId) = true
      · rw [if_pos h]
      · rw [if_neg h]
    rw [hfun, hfind']
    have heq : a.account_id = userId := beq_iff_eq.mp hpa
    simp [hpa, heq]

/-- Witness for C8: soft-deleting the sample account 2 keeps its
credential rows, keeps the record findable, and only flips its status
and `updated_at`. -/
theorem deleteUser_soft_delete_frame_witness :
    (deleteUser dbSample 2 5).2 = 200 ∧
    (deleteUser dbSample 2 5).1.credentials = dbSample.credentials ∧
    findAccount (deleteUser dbSample 2 5).1 2 =
      some { acctBob with account_status := "deleted", updated_at := 5 } :=
  ⟨(deleteUser_soft_delete_frame dbSample 2 5 acctBob (by decide)).1,
   (deleteUser_soft_delete_frame dbSample 2 5 acctBob (by decide)).2.1,
   (deleteUser_soft_delete_frame dbSample 2 5 acctBob (by decide)).2.2.2⟩

/-- Claim C9: when the body's `role` field is falsy (0, empty string,
null, false, NaN or absent) and `account_role` is absent, `canManageRole`
selects `undefined`, performs no range check and no hierarchy check, and
lets the request proceed whatever the actor's role. -/
theorem falsy_role_skips_role_checks (req : Req) (c : Claims)
    (hc : req.claims = some c)
    (hfalsy : jsTruthy req.body.role = false)
    (habsent : req.body.account_role = JsVal.vUndefined) :
    canManageRole req = .next := by
  have hsel : jsOr req.body.role req.body.account_role = JsVal.vUndefined := by
    simp [jsOr, hfalsy, habsent]
  simp [canManageRole, hc, hsel]

/-- Witness for C9: `role = 0` with `account_role` absent proceeds even
for the lowest actor role. -/
theorem falsy_role_skips_role_checks_witness :
    canManageRole
      { claims := some { id := 1, role := 1 }, paramsId := 2,
        body := { role := intVal 0, account_role := .vUndefined } } = .next :=
  falsy_role_skips_role_checks _ { id := 1, role := 1 } rfl (by decide) (by decide)

/-- Claim C10: for a target id absent from the store the target-ceiling
middleware passes the request through (never Forbidden on that account's
behalf), and when the other pipeline checks pass the composed role-change
handler reaches the controller, which answers NotFound (404) with the
store unchanged. -/
theorem absent_target_passes_ceiling_then_404 (req : Req) (db : DB) (c : Claims) (now : ℕ)
    (hc : req.claims = some c)
    (habsent : findAccount db req.paramsId = none) :
    canModifyTargetUser req db = .next ∧
    (requireRole ROLES_MODERATOR req = .next →
     preventSelfModification req = .next →
     canManageRole req = .next →
     handlePutUserRole req db now = (db, 404)) := by
  have hcm : canModifyTargetUser req db = .next := by
    simp [canModifyTargetUser, hc, habsent]
  refine ⟨hcm, ?_⟩
  intro h1 h2 h3
  simp [handlePutUserRole, requireAdminForUserModification, runChain, h1, h2, h3, hcm,
        changeUserRole, habsent]

/-- Witness for C10: a role change aimed at the nonexistent account 9
passes the ceiling check and ends with 404 from the controller, the store
unchanged. -/
theorem absent_target_passes_ceiling_then_404_witness :
    canModifyTargetUser
      { claims := some { id := 1, role := 3 }, paramsId := 9,
        body := { role := intVal 2, account_role := .vUndefined } } dbSample = .next ∧
    handlePutUserRole
      { claims := some { id := 1, role := 3 }, paramsId := 9,
        body := { role := intVal 2, account_role := .vUndefined } } dbSample 7 = (dbSample, 404) :=
  ⟨(absent_target_passes_ceiling_then_404
      { claims := some { id := 1, role := 3 }, paramsId := 9,
        body := { role := intVal 2, account_role := .vUndefined } }
      dbSample { id := 1, role := 3 } 7 rfl (by decide)).1,
   (absent_target_passes_ceiling_then_404
      { claims := some { id := 1, role := 3 }, paramsId := 9,
        body := { role := intVal 2, account_role := .vUndefined } }
      dbSample { id := 1, role := 3 } 7 rfl (by decide)).2
     (by decide) (by decide) (by decide)⟩

end Auth2
